import Mathlib

/-!
Shallow embedding of the Number Acquisition & Verification-Code Monitoring
Engine of the repository (src/marketplace_gui.py and src/session_guard.py),
together with theorems settling the specification claims about it.

Python floats carrying money amounts are modelled as rationals; strings stay
strings; dictionaries become structures; randomness (purchase success draws,
activation ids) and the clock become explicit parameters; the caught-exception
pattern becomes Option/total functions.
-/

namespace LuckyCharm

/-! ## Ledger (wallet)

src/marketplace_gui.py line 37 defines only a standalone stub
(`class WalletManager: def __init__(self, user): self.balance = 50.00`);
the real `core` WalletManager used by the GUI (`spend`, `deposit`,
`get_balance`) is not part of src/.  Its behaviour is therefore modelled
from the spec (section 4.1). -/

structure LedgerEntry where
  delta : ℚ
  reason : String
  resultingBalance : ℚ
deriving Repr, DecidableEq

structure Ledger where
  balance : ℚ
  log : List LedgerEntry
deriving Repr, DecidableEq

/-- Modelled from the spec: `core` WalletManager.spend / Ledger.Debit is not
under src/.  Spec 4.1: `Debit(amount, reason) -> Result<TransactionId,
InsufficientFunds>`; all debits are pre-checked against the current balance
and a debit that would overdraw is rejected rather than applied. -/
def walletSpend (w : Ledger) (amt : ℚ) (reason : String) : Option Ledger :=
  if amt ≤ w.balance then
    some { balance := w.balance - amt
           log := w.log ++ [⟨-amt, reason, w.balance - amt⟩] }
  else
    none

/-- Modelled from the spec: `core` WalletManager.deposit / Ledger.Credit is
not under src/.  Spec 4.1: `Credit(amount, reason)` always appends. -/
def walletDeposit (w : Ledger) (amt : ℚ) (reason : String) : Ledger :=
  { balance := w.balance + amt
    log := w.log ++ [⟨amt, reason, w.balance + amt⟩] }

/-- The standalone stub in src/marketplace_gui.py starts every wallet at
$50.00. -/
def initialWallet : Ledger := { balance := 50, log := [] }

/-! ## Catalog listings and owned numbers -/

/-- A marketplace listing as generated in `_generate_marketplace_data`
(src/marketplace_gui.py): a dict with id, service, country {name, ...},
provider, price, number, success_rate, quality_score.  Only the country name
is consulted by the code under study. -/
structure Item where
  id : String
  service : String
  countryName : String
  provider : String
  price : ℚ
  number : String
  success_rate : Nat
  quality_score : Nat
deriving Repr, DecidableEq

inductive NumberStatus
  | active
  | telegram_ready
  | used
  | expired
deriving Repr, DecidableEq

/-- An owned-number record as synthesized in `_process_purchase` /
`_purchase_single_item` and stored in `self.owned_numbers`. -/
structure OwnedNumber where
  service : String
  country : String
  number : String
  price : ℚ
  activation_id : String
  status : NumberStatus
  purchase_date : String
  provider : String
  success_rate : Nat
  last_used : String
deriving Repr, DecidableEq

/-- A row of the purchase-results report (`purchased` list in
`_process_purchase`). -/
structure PurchasedItem where
  service : String
  country : String
  number : String
  price : ℚ
  activation_id : String
  status : NumberStatus
deriving Repr, DecidableEq

def mkPurchasedItem (item : Item) (actId : String) : PurchasedItem :=
  { service := item.service
    country := item.countryName
    number := item.number
    price := item.price
    activation_id := actId
    status := .active }

def mkOwnedNumber (item : Item) (actId : String) (date : String) : OwnedNumber :=
  { service := item.service
    country := item.countryName
    number := item.number
    price := item.price
    activation_id := actId
    status := .active
    purchase_date := date
    provider := item.provider
    success_rate := item.success_rate
    last_used := "Never" }

def sumPrices (cart : List Item) : ℚ :=
  (cart.map (fun i => i.price)).sum

/-! ## Purchase orchestration

`_process_purchase` (src/marketplace_gui.py lines 2441-2506): the whole cart
total is spent from the wallet in one call, then each item is processed by an
independent random draw (`random.random() > 0.1`); a successful draw appends
a report row and an owned number, a failed draw is silently skipped — no
refund is issued and no failed-item record is produced.  The random draws and
the generated activation ids are modelled as explicit parameters indexed by
cart position. -/

def processItemsFrom :
    List Item → Nat → (Nat → Bool) → (Nat → String) → String →
    List PurchasedItem × List OwnedNumber
  | [], _, _, _, _ => ([], [])
  | item :: rest, i, outcome, actId, date =>
    let tail := processItemsFrom rest (i + 1) outcome actId date
    if outcome i then
      (mkPurchasedItem item (actId i) :: tail.1,
       mkOwnedNumber item (actId i) date :: tail.2)
    else
      tail

def processItems (cart : List Item) (outcome : Nat → Bool)
    (actId : Nat → String) (date : String) :
    List PurchasedItem × List OwnedNumber :=
  processItemsFrom cart 0 outcome actId date

/-- The engine state the purchase path mutates: the wallet and the
`self.owned_numbers` list. -/
structure EngineState where
  wallet : Ledger
  owned : List OwnedNumber
deriving Repr, DecidableEq

/-- `_process_purchase`: spend the cart total up front, then process items;
the surrounding try/except turns a failed spend into no processing at all.
Returns the new state together with the `purchased` report list. -/
def processPurchase (s : EngineState) (cart : List Item) (outcome : Nat → Bool)
    (actId : Nat → String) (date : String) :
    EngineState × List PurchasedItem :=
  match walletSpend s.wallet (sumPrices cart)
      ("SMS numbers purchase - " ++ toString cart.length ++ " items") with
  | none => (s, [])
  | some w =>
    let r := processItems cart outcome actId date
    ({ wallet := w, owned := s.owned ++ r.2 }, r.1)

/-- `_quick_topup` (lines 2389-2403): on user confirmation, deposit the
amount. -/
def quickTopup (w : Ledger) (amount : ℚ) (accept : Bool) : Ledger :=
  if accept then
    walletDeposit w amount ("Quick top-up $" ++ toString amount)
  else
    w

/-- `_checkout` (lines 2405-2439): empty cart does nothing; if the current
balance is below the WHOLE cart total, the run is aborted before any item is
processed (optionally, behind two confirmation dialogs, topping up the
shortage plus $5) and no item is ever purchased; otherwise, after user
confirmation, `_process_purchase` runs. -/
def checkout (s : EngineState) (cart : List Item) (outcome : Nat → Bool)
    (actId : Nat → String) (date : String)
    (addFundsAccept topupAccept confirmAccept : Bool) :
    EngineState × List PurchasedItem :=
  if cart.isEmpty then
    (s, [])
  else
    let total := sumPrices cart
    if s.wallet.balance < total then
      ({ s with wallet :=
          if addFundsAccept then
            quickTopup s.wallet (total - s.wallet.balance + 5) topupAccept
          else
            s.wallet }, [])
    else if confirmAccept then
      processPurchase s cart outcome actId date
    else
      (s, [])

/-- `_purchase_single_item` (lines 2598-2642): refuse when the balance is
below the price, otherwise spend exactly the price and append one owned
number with status active. -/
def purchaseSingleItem (s : EngineState) (item : Item)
    (actId : String) (date : String) : EngineState :=
  if s.wallet.balance < item.price then
    s
  else
    match walletSpend s.wallet item.price
        ("SMS number: " ++ item.service ++ " (" ++ item.countryName ++ ")") with
    | none => s
    | some w => { wallet := w, owned := s.owned ++ [mkOwnedNumber item actId date] }

/-! ## Engine operation sequences

For claim C4, the purchase-path operations the engine can issue (cart
checkout, single-item quick purchase, wallet top-up) are folded over the
engine state. -/

inductive EngineAction
  | runCheckout (cart : List Item) (outcome : Nat → Bool) (actId : Nat → String)
      (date : String) (addFunds topup confirm : Bool)
  | runSingle (item : Item) (actId : String) (date : String)
  | runTopup (amount : ℚ) (accept : Bool)

def applyEngineAction (s : EngineState) : EngineAction → EngineState
  | .runCheckout cart outcome actId date a t c =>
    (checkout s cart outcome actId date a t c).1
  | .runSingle item actId date => purchaseSingleItem s item actId date
  | .runTopup amount accept =>
    { s with wallet := quickTopup s.wallet amount accept }

def runEngine (s : EngineState) (acts : List EngineAction) : EngineState :=
  acts.foldl applyEngineAction s

/-- The amounts the engine feeds its explicit top-up buttons are the fixed
positive quick-topup denominations; an action is engine-issuable when any
direct top-up amount is non-negative (checkout-internal top-ups compute
their own amount). -/
def TopupNonneg : EngineAction → Prop
  | .runTopup a _ => 0 ≤ a
  | _ => True

/-! ## SMS code journal and monitoring

`_log_sms_code_to_db` (src/marketplace_gui.py lines 1423-1455) runs a plain
INSERT of (number, service, code, provider, activation_id, received_at,
status) with no prior existence check; `_check_for_sms_codes` (lines
1342-1361) fetches codes per monitored number and, for each code, logs it to
the database and appends it to the display list, never consulting the
monitoring-active flag; `_start_sms_monitoring` (lines 1297-1330) reads the
poll interval once before its while loop; `_stop_sms_monitoring` (lines
1332-1340) merely clears the active flag. -/

/-- A formatted code record, as built by `_fetch_sms_codes_from_provider`
and consumed by `_log_sms_code_to_db` / `_add_sms_code_to_display`. -/
structure CodeRow where
  number : String
  service : String
  code : String
  provider : String
  activation_id : String
  received_at : String
  status : String
deriving Repr, DecidableEq

/-- `_log_sms_code_to_db`: unconditional INSERT into sms_codes. -/
def logSmsCodeToDb (db : List CodeRow) (c : CodeRow) : List CodeRow :=
  db ++ [c]

/-- The monitoring-related state: the active flag, the sms_codes database
table, and the GUI display list (`self.sms_codes`). -/
structure MonState where
  monitoring_active : Bool
  db : List CodeRow
  sms_codes : List CodeRow
deriving Repr, DecidableEq

/-- Processing of one fetched code inside `_check_for_sms_codes`: log to the
database, then add to the display. -/
def processCode (s : MonState) (c : CodeRow) : MonState :=
  { s with db := logSmsCodeToDb s.db c, sms_codes := s.sms_codes ++ [c] }

/-- `_check_for_sms_codes`: for every monitored number, fetch its codes and
process each one.  The function never reads `monitoring_active`. -/
def checkForSmsCodes (fetch : String → List CodeRow) (nums : List String)
    (s : MonState) : MonState :=
  ((nums.map fetch).flatten).foldl processCode s

/-- `_stop_sms_monitoring`: clear the active flag (plus button/label updates,
which carry no engine state). -/
def stopSmsMonitoring (s : MonState) : MonState :=
  { s with monitoring_active := false }

/-- One iteration of the `monitoring_worker` while loop: runs a polling cycle
only when the flag read at the top of the loop is still set. -/
def monitoringWorkerStep (fetch : String → List CodeRow) (nums : List String)
    (s : MonState) : Option MonState :=
  if s.monitoring_active then some (checkForSmsCodes fetch nums s) else none

/-- `float(self.poll_interval_var.get() or 5)`: an empty entry field falls
back to 5.  The entry value is modelled as the parse result, none standing
for the empty string. -/
def parsePollInterval (v : Option ℚ) : ℚ :=
  v.getD 5

/-- The sequence of sleep durations used by `monitoring_worker` over its
first `fuel` cycles, given the value of the interval entry field at each
cycle: the source reads the field ONCE, before the while loop, so every
cycle sleeps for the value read at cycle 0. -/
def monitoringWorkerSleeps (varAt : Nat → Option ℚ) (fuel : Nat) : List ℚ :=
  let pollInterval := parsePollInterval (varAt 0)
  (List.range fuel).map (fun _ => pollInterval)

/-- For the refinement comparison of claim C7, this definition follows the
spec's words ("interval is reloaded each cycle, so a live interval change
takes effect on the next tick"): the sleep of cycle n uses the field value
at cycle n. -/
def specReloadedSleeps (varAt : Nat → Option ℚ) (fuel : Nat) : List ℚ :=
  (List.range fuel).map (fun n => parsePollInterval (varAt n))

/-! ## Owned-number status transitions

`_mark_selected_used` (lines 1243-1268) and `_mark_number_telegram_ready`
(lines 1214-1231) scan `self.owned_numbers` for the first entry matching the
selected (number, activation_id) pair, overwrite its status and last_used
unconditionally, and break.  There is no check of the current status and no
error value for an illegal transition. -/

def matchesSelection (sel : OwnedNumber) (n : OwnedNumber) : Bool :=
  n.number == sel.number && n.activation_id == sel.activation_id

/-- The in-place update loop shared by both mark operations: set the given
status on the first matching entry. -/
def setStatusFirstMatch (numbers : List OwnedNumber) (sel : OwnedNumber)
    (newStatus : NumberStatus) (now : String) : List OwnedNumber :=
  match numbers with
  | [] => []
  | n :: rest =>
    if matchesSelection sel n then
      { n with status := newStatus, last_used := now } :: rest
    else
      n :: setStatusFirstMatch rest sel newStatus now

/-- `_mark_selected_used`: unconditionally set status used. -/
def markSelectedUsed (numbers : List OwnedNumber) (sel : OwnedNumber)
    (now : String) : List OwnedNumber :=
  setStatusFirstMatch numbers sel .used now

/-! ## Catalog filtering

`_get_filtered_data` (lines 2268-2293).  The two price entry fields are
modelled by their float() parse results, none standing for a malformed
entry; the source wraps both conversions and the price comparison in one
try/except whose handler is pass, so a malformed bound skips the price
filter entirely. -/

/-- The country combobox holds strings like "\x7bflag\x7d \x7bname\x7d"; the
source takes `split(' ', 1)[1]` when a space is present, the raw string
otherwise. -/
def countryDisplayToName (s : String) : String :=
  if s.contains ' ' then
    String.intercalate " " ((s.splitOn " ").drop 1)
  else
    s

def getFilteredData (providers : List Item)
    (serviceVar countryVar : String) (priceMin priceMax : Option ℚ)
    (providerVar : String) : List Item :=
  let f1 := if serviceVar ≠ "all" then
      providers.filter (fun p => p.service == serviceVar)
    else providers
  let f2 := if countryVar ≠ "all" then
      f1.filter (fun p => p.countryName == countryDisplayToName countryVar)
    else f1
  let f3 := match priceMin, priceMax with
    | some lo, some hi => f2.filter (fun p => lo ≤ p.price ∧ p.price ≤ hi)
    | _, _ => f2
  if providerVar ≠ "all" then
    f3.filter (fun p => p.provider == providerVar)
  else f3

/-! ## Durable store of owned numbers

`_load_owned_numbers` (lines 196-205): when the backing file does not exist
the try body falls through and the function returns []; a read or parse
failure is caught, logged, and also yields [].  The filesystem is modelled
as the outcome of reading the file: none when the file is missing, otherwise
the parse result. -/

inductive FileRead
  | missing
  | corrupt
  | content (numbers : List OwnedNumber)
deriving Repr, DecidableEq

/-- The body of the try block: when the file exists, open and json-parse it
(which may raise); when it does not exist, fall through to the final
`return []` with no exception raised at all. -/
def tryLoadOwnedNumbers : FileRead → Except String (List OwnedNumber)
  | .missing => .ok []
  | .corrupt => .error "json decode error"
  | .content numbers => .ok numbers

/-- `_load_owned_numbers`: any exception inside the try is caught, logged,
and converted to the empty list; the caller never sees an error. -/
def loadOwnedNumbers (fs : FileRead) : List OwnedNumber :=
  match tryLoadOwnedNumbers fs with
  | .ok numbers => numbers
  | .error _ => []

/-! ## Session guard (src/session_guard.py lines 108-133)

The TelegramClient class attributes touched by `enable_logout_protection`:
the `log_out` slot, the saved `_orig_log_out` slot (absent before the first
wrap), and the `_logout_guard_enabled` marker.  A method value is either the
vendor's original `log_out` or the guard wrapper. -/

inductive LogOutMethod
  | original
  | guarded
deriving Repr, DecidableEq

structure TelegramClientClass where
  log_out : LogOutMethod
  orig_log_out : Option LogOutMethod
  logout_guard_enabled : Bool
deriving Repr, DecidableEq

/-- The pristine vendor class before any patching. -/
def initTelegramClientClass : TelegramClientClass :=
  { log_out := .original, orig_log_out := none, logout_guard_enabled := false }

/-- `enable_logout_protection`: bail out False when the telethon import
fails; return True immediately when the guard marker is already set; else
save the current log_out into `_orig_log_out` (only if not already saved),
install the wrapper, and set the marker. -/
def enableLogoutProtection (importOk : Bool) (s : TelegramClientClass) :
    Bool × TelegramClientClass :=
  if !importOk then
    (false, s)
  else if s.logout_guard_enabled then
    (true, s)
  else
    let s1 := if s.orig_log_out.isNone then
        { s with orig_log_out := some s.log_out }
      else s
    (true, { s1 with log_out := .guarded, logout_guard_enabled := true })

/-- Iterated enabling (with a working import), starting from the pristine
class. -/
def enableN : Nat → TelegramClientClass
  | 0 => initTelegramClientClass
  | n + 1 => (enableLogoutProtection true (enableN n)).2

/-- Outcome of invoking `client.log_out(...)`. -/
inductive CallResult
  | loggedOut
  | runtimeError
  | attributeError
  | reenteredGuard
deriving Repr, DecidableEq

/-- The body of `guarded_log_out`: raise RuntimeError unless the environment
variable ALLOW_TELEGRAM_LOGOUT equals "1"; when allowed, call
`TelegramClient._orig_log_out` (reading the class slot at call time). -/
def callGuardedBody (s : TelegramClientClass) (env : Option String) :
    CallResult :=
  if env ≠ some "1" then
    .runtimeError
  else
    match s.orig_log_out with
    | some .original => .loggedOut
    | some .guarded => .reenteredGuard
    | none => .attributeError

/-- Invoke whatever currently sits in the class `log_out` slot. -/
def callLogOut (s : TelegramClientClass) (env : Option String) : CallResult :=
  match s.log_out with
  | .original => .loggedOut
  | .guarded => callGuardedBody s env

/-! ## Concrete fixtures used by witnesses and counterexamples -/

def itemA : Item :=
  { id := "sms_10001", service := "Telegram", countryName := "United States"
    provider := "SMS-Man", price := 2, number := "+1 555 0100"
    success_rate := 95, quality_score := 90 }

def itemB : Item :=
  { id := "sms_10002", service := "WhatsApp", countryName := "Germany"
    provider := "5SIM", price := 3, number := "+49 555 0200"
    success_rate := 92, quality_score := 85 }

/-- A wallet holding exactly $4.00, the balance of the C2 scenario. -/
def wallet4 : Ledger := { balance := 4, log := [] }

def codeN1 : CodeRow :=
  { number := "N1", service := "Telegram", code := "123456", provider := "Demo"
    activation_id := "demo_123", received_at := "12:00:00", status := "new" }

/-- An allocator view returning the same code for N1 in every cycle and
nothing for any other number. -/
def fetchN1 (n : String) : List CodeRow :=
  if n == "N1" then [codeN1] else []

def expiredNumber : OwnedNumber :=
  { service := "Telegram", country := "United States", number := "+1 555 0100"
    price := 2, activation_id := "act_777777", status := .expired
    purchase_date := "2025-01-01 10:00:00", provider := "SMS-Man"
    success_rate := 95, last_used := "2025-02-01 10:00:00" }

/-- Interval entry field holding 5 at start and changed to 1 from the second
cycle on. -/
def intervalVarRun (n : Nat) : Option ℚ :=
  if n = 0 then some 5 else some 1

/-! ## Helper lemmas -/

theorem foldl_processCode_db (l : List CodeRow) (s : MonState) :
    (l.foldl processCode s).db = s.db ++ l := by
  induction l generalizing s with
  | nil => simp
  | cons c rest ih =>
    simp [List.foldl_cons, ih, processCode, logSmsCodeToDb]

theorem foldl_processCode_sms_codes (l : List CodeRow) (s : MonState) :
    (l.foldl processCode s).sms_codes = s.sms_codes ++ l := by
  induction l generalizing s with
  | nil => simp
  | cons c rest ih =>
    simp [List.foldl_cons, ih, processCode]

theorem checkForSmsCodes_db (fetch : String → List CodeRow)
    (nums : List String) (s : MonState) :
    (checkForSmsCodes fetch nums s).db = s.db ++ (nums.map fetch).flatten := by
  simp [checkForSmsCodes, foldl_processCode_db]

theorem checkForSmsCodes_sms_codes (fetch : String → List CodeRow)
    (nums : List String) (s : MonState) :
    (checkForSmsCodes fetch nums s).sms_codes
      = s.sms_codes ++ (nums.map fetch).flatten := by
  simp [checkForSmsCodes, foldl_processCode_sms_codes]

theorem processItemsFrom_length_le (cart : List Item) (i : Nat)
    (outcome : Nat → Bool) (actId : Nat → String) (date : String) :
    (processItemsFrom cart i outcome actId date).1.length ≤ cart.length := by
  induction cart generalizing i with
  | nil => simp [processItemsFrom]
  | cons item rest ih =>
    simp only [processItemsFrom, List.length_cons]
    split
    · simpa using Nat.succ_le_succ (ih (i + 1))
    · exact Nat.le_succ_of_le (ih (i + 1))

theorem walletSpend_balance (w : Ledger) (amt : ℚ) (reason : String)
    (w2 : Ledger) (h : walletSpend w amt reason = some w2) :
    w2.balance = w.balance - amt ∧ amt ≤ w.balance := by
  unfold walletSpend at h
  split at h
  · exact ⟨by cases h; rfl, by assumption⟩
  · cases h

theorem walletSpend_log (w : Ledger) (amt : ℚ) (reason : String)
    (w2 : Ledger) (h : walletSpend w amt reason = some w2) :
    w2.log = w.log ++ [⟨-amt, reason, w.balance - amt⟩] := by
  unfold walletSpend at h
  split at h
  · cases h; rfl
  · cases h

theorem walletSpend_isSome (w : Ledger) (amt : ℚ) (reason : String)
    (h : amt ≤ w.balance) :
    walletSpend w amt reason
      = some { balance := w.balance - amt
               log := w.log ++ [⟨-amt, reason, w.balance - amt⟩] } := by
  simp [walletSpend, h]

/-! ## Claim C1 -/

/-- Claim C1 fails on the code: on the run over cart [itemA at 2, itemB at 3]
starting from the $50 wallet, where the first item's draw succeeds and the
second fails, the report holds 1 succeeded row and no failed record
(1 + 0 is not the cart length 2), and the ledger delta is -5 (the whole cart
total), not -(2) = minus the sum of the succeeded prices: the failed item was
debited and never refunded. -/
theorem c1_counterexample :
    let run := processPurchase { wallet := initialWallet, owned := [] }
        [itemA, itemB] (fun i => i == 0) (fun _ => "act_100000") "2025-03-01"
    run.2.length = 1 ∧
    run.1.wallet.balance - initialWallet.balance = -5 ∧
    -(sumPrices [itemA]) = -2 ∧
    run.1.wallet.balance - initialWallet.balance ≠ -(sumPrices [itemA]) ∧
    run.2.length + 0 ≠ ([itemA, itemB] : List Item).length := by
  norm_num [processPurchase, walletSpend, sumPrices, itemA, itemB,
    initialWallet, processItems, processItemsFrom, mkPurchasedItem,
    mkOwnedNumber]

/-- Claim C1 amended: for every purchase run whose cart total the wallet
covers, the ledger is debited ONCE for the sum of all cart item prices before
any item is processed; no refund credit is ever issued and no failed record
is produced, so the run's net ledger delta equals minus the whole cart total
(the single appended log entry being that debit) and the report lists only
succeeded items, at most one per cart item. -/
theorem c1_whole_cart_debit_no_refund
    (s : EngineState) (cart : List Item) (outcome : Nat → Bool)
    (actId : Nat → String) (date : String)
    (h : sumPrices cart ≤ s.wallet.balance) :
    (processPurchase s cart outcome actId date).1.wallet.balance
        = s.wallet.balance - sumPrices cart ∧
    (processPurchase s cart outcome actId date).1.wallet.log
        = s.wallet.log ++ [⟨-(sumPrices cart),
            "SMS numbers purchase - " ++ toString cart.length ++ " items",
            s.wallet.balance - sumPrices cart⟩] ∧
    (processPurchase s cart outcome actId date).2.length ≤ cart.length := by
  unfold processPurchase
  rw [walletSpend_isSome _ _ _ h]
  exact ⟨rfl, rfl, processItemsFrom_length_le cart 0 outcome actId date⟩

/-- Claim C1 amended, instantiated: the $50 wallet affords the $5 cart, and
the amended statement holds there. -/
theorem c1_whole_cart_debit_no_refund_witness :
    (sumPrices [itemA, itemB]
        ≤ (EngineState.mk initialWallet []).wallet.balance) ∧
    ((processPurchase { wallet := initialWallet, owned := [] } [itemA, itemB]
        (fun i => i == 0) (fun _ => "act_100000")
        "2025-03-01").1.wallet.balance
      = (EngineState.mk initialWallet []).wallet.balance
          - sumPrices [itemA, itemB] ∧
    (processPurchase { wallet := initialWallet, owned := [] } [itemA, itemB]
        (fun i => i == 0) (fun _ => "act_100000") "2025-03-01").1.wallet.log
      = (EngineState.mk initialWallet []).wallet.log
          ++ [⟨-(sumPrices [itemA, itemB]),
              "SMS numbers purchase - "
                ++ toString ([itemA, itemB] : List Item).length ++ " items",
              (EngineState.mk initialWallet []).wallet.balance
                - sumPrices [itemA, itemB]⟩] ∧
    (processPurchase { wallet := initialWallet, owned := [] } [itemA, itemB]
        (fun i => i == 0) (fun _ => "act_100000") "2025-03-01").2.length
      ≤ ([itemA, itemB] : List Item).length) :=
  ⟨by norm_num [sumPrices, itemA, itemB, initialWallet],
   c1_whole_cart_debit_no_refund { wallet := initialWallet, owned := [] }
     [itemA, itemB] (fun i => i == 0) (fun _ => "act_100000") "2025-03-01"
     (by norm_num [sumPrices, itemA, itemB, initialWallet])⟩

/-! ## Claim C2 -/

/-- Claim C2 fails on the code: in the scenario cart = [$2 item, $3 item]
with balance $4, `_checkout` pre-checks the WHOLE total ($5) against the
balance and aborts before any item is processed: the report is empty (the
first item does NOT succeed) and the balance stays at $4, not $2. -/
theorem c2_counterexample :
    let run := checkout { wallet := wallet4, owned := [] } [itemA, itemB]
        (fun _ => true) (fun _ => "act_100000") "2025-03-01" false false true
    run.2 = ([] : List PurchasedItem) ∧
    run.1.wallet.balance = 4 ∧
    run.1.owned = ([] : List OwnedNumber) ∧
    (4 : ℚ) ≠ 2 := by
  norm_num [checkout, sumPrices, itemA, itemB, wallet4]

/-- Claim C2 amended: the checkout pre-checks the entire cart total against
the balance before issuing any debit; when the balance is below the total,
the ENTIRE cart is aborted with nothing processed — no item is debited, no
item succeeds, the owned list is untouched, and (top-up declined) the engine
state is returned unchanged; with the top-up dialogs accepted the wallet only
gains the shortage plus $5 and still no item is processed.  There is no
per-item debit at all. -/
theorem c2_whole_cart_precheck_aborts_all
    (s : EngineState) (cart : List Item) (outcome : Nat → Bool)
    (actId : Nat → String) (date : String) (confirm : Bool)
    (hne : cart ≠ []) (h : s.wallet.balance < sumPrices cart) :
    checkout s cart outcome actId date false false confirm = (s, []) ∧
    (checkout s cart outcome actId date true true confirm).2
      = ([] : List PurchasedItem) ∧
    (checkout s cart outcome actId date true true confirm).1.owned
      = s.owned ∧
    (checkout s cart outcome actId date true true confirm).1.wallet.balance
      = s.wallet.balance + (sumPrices cart - s.wallet.balance + 5) := by
  have hempty : cart.isEmpty = false := by
    cases cart with
    | nil => exact absurd rfl hne
    | cons a l => rfl
  refine ⟨?_, ?_, ?_, ?_⟩ <;>
    simp [checkout, hempty, h, quickTopup, walletDeposit]

/-- Claim C2 amended, instantiated at the scenario input: balance $4 is below
the $5 total, and the amended statement holds there. -/
theorem c2_whole_cart_precheck_aborts_all_witness :
    (([itemA, itemB] : List Item) ≠ [] ∧
     (EngineState.mk wallet4 []).wallet.balance < sumPrices [itemA, itemB]) ∧
    (checkout { wallet := wallet4, owned := [] } [itemA, itemB]
        (fun _ => true) (fun _ => "act_100000") "2025-03-01" false false true
      = ({ wallet := wallet4, owned := [] }, []) ∧
    (checkout { wallet := wallet4, owned := [] } [itemA, itemB]
        (fun _ => true) (fun _ => "act_100000") "2025-03-01" true true true).2
      = ([] : List PurchasedItem) ∧
    (checkout { wallet := wallet4, owned := [] } [itemA, itemB]
        (fun _ => true) (fun _ => "act_100000")
        "2025-03-01" true true true).1.owned
      = (EngineState.mk wallet4 []).owned ∧
    (checkout { wallet := wallet4, owned := [] } [itemA, itemB]
        (fun _ => true) (fun _ => "act_100000")
        "2025-03-01" true true true).1.wallet.balance
      = (EngineState.mk wallet4 []).wallet.balance
          + (sumPrices [itemA, itemB]
              - (EngineState.mk wallet4 []).wallet.balance + 5)) :=
  ⟨⟨by simp, by norm_num [sumPrices, itemA, itemB, wallet4]⟩,
   c2_whole_cart_precheck_aborts_all { wallet := wallet4, owned := [] }
     [itemA, itemB] (fun _ => true) (fun _ => "act_100000") "2025-03-01" true
     (by simp) (by norm_num [sumPrices, itemA, itemB, wallet4])⟩

/-! ## Claim C3 -/

/-- Claim C3 fails on the code: with watch set {N1, N2} and the allocator
returning code "123456" for N1 in two successive cycles with identical
dedupe identity, the journal ends with TWO stored entries for N1, not one:
`_log_sms_code_to_db` inserts unconditionally and nothing anywhere computes
or checks a dedupe key. -/
theorem c3_counterexample :
    ((checkForSmsCodes fetchN1 ["N1", "N2"]
        (checkForSmsCodes fetchN1 ["N1", "N2"]
          { monitoring_active := true, db := [], sms_codes := [] })).db.filter
        (fun c => c.number == "N1")).length = 2 ∧
    (2 : Nat) ≠ 1 := by
  decide

/-- Claim C3 amended: the Code Journal performs no deduplication at all —
every polling cycle appends every fetched code unconditionally, so two
successive cycles over the same watch set with the same allocator answers
store every returned code twice (one entry per cycle), dedupe identity
notwithstanding. -/
theorem c3_journal_no_dedupe (fetch : String → List CodeRow)
    (nums : List String) (s : MonState) :
    (checkForSmsCodes fetch nums (checkForSmsCodes fetch nums s)).db
      = s.db ++ (nums.map fetch).flatten ++ (nums.map fetch).flatten := by
  simp [checkForSmsCodes_db]

/-! ## Claim C4 -/

theorem applyEngineAction_balance_nonneg (s : EngineState) (a : EngineAction)
    (h0 : 0 ≤ s.wallet.balance) (ha : TopupNonneg a) :
    0 ≤ (applyEngineAction s a).wallet.balance := by
  cases a with
  | runCheckout cart outcome actId date aF t c =>
    simp only [applyEngineAction, checkout]
    split
    · exact h0
    · split
      · rename_i hlt
        cases aF with
        | false => exact h0
        | true =>
          cases t with
          | false => exact h0
          | true =>
            simp only [quickTopup, walletDeposit, if_pos]
            have : s.wallet.balance < sumPrices cart := hlt
            linarith
      · split
        · rename_i hge _
          simp only [processPurchase]
          cases hsp : walletSpend s.wallet (sumPrices cart)
              ("SMS numbers purchase - " ++ toString cart.length ++ " items")
            with
          | none => exact h0
          | some w =>
            have hb := walletSpend_balance _ _ _ _ hsp
            simp only
            linarith [hb.1, hb.2]
        · exact h0
  | runSingle item actId date =>
    simp only [applyEngineAction, purchaseSingleItem]
    split
    · exact h0
    · cases hsp : walletSpend s.wallet item.price
          ("SMS number: " ++ item.service ++ " (" ++ item.countryName ++ ")")
        with
      | none => exact h0
      | some w =>
        have hb := walletSpend_balance _ _ _ _ hsp
        simp only
        linarith [hb.1, hb.2]
  | runTopup amount accept =>
    cases accept with
    | false => exact h0
    | true =>
      have hamt : 0 ≤ amount := ha
      simp only [applyEngineAction, quickTopup, walletDeposit, if_pos]
      linarith

/-- Claim C4: for every sequence of purchase-path operations the engine can
issue (cart checkouts, single-item purchases, top-ups with non-negative
amounts) from a wallet with a non-negative balance, the balance never becomes
negative: every debit is pre-checked against the current balance by the
spec-modelled `Ledger.Debit`, and a debit that would overdraw is rejected
rather than applied. -/
theorem c4_balance_never_negative (s : EngineState) (acts : List EngineAction)
    (h0 : 0 ≤ s.wallet.balance) (hacts : ∀ a ∈ acts, TopupNonneg a) :
    0 ≤ (runEngine s acts).wallet.balance := by
  induction acts generalizing s with
  | nil => simpa [runEngine] using h0
  | cons a rest ih =>
    have hstep := applyEngineAction_balance_nonneg s a h0
      (hacts a (List.mem_cons_self a rest))
    have htail : ∀ b ∈ rest, TopupNonneg b := fun b hb =>
      hacts b (List.mem_cons_of_mem a hb)
    simpa [runEngine] using ih (applyEngineAction s a) hstep htail

/-- A concrete engine run for the C4 witness: a top-up, a cart checkout whose
second item fails, a single-item purchase, and a declined top-up. -/
def c4acts : List EngineAction :=
  [.runTopup 10 true,
   .runCheckout [itemA, itemB] (fun i => i == 0) (fun _ => "act_100001")
     "2025-03-01" false false true,
   .runSingle itemA "act_100002" "2025-03-01",
   .runTopup 0 false]

/-- Claim C4, instantiated on a concrete engine run from the $50 wallet. -/
theorem c4_balance_never_negative_witness :
    (0 ≤ (EngineState.mk initialWallet []).wallet.balance ∧
      ∀ a ∈ c4acts, TopupNonneg a) ∧
    0 ≤ (runEngine { wallet := initialWallet, owned := [] }
          c4acts).wallet.balance :=
  ⟨⟨by norm_num [initialWallet],
    by norm_num [c4acts, TopupNonneg, List.forall_mem_cons]⟩,
   c4_balance_never_negative { wallet := initialWallet, owned := [] } c4acts
     (by norm_num [initialWallet])
     (by norm_num [c4acts, TopupNonneg, List.forall_mem_cons])⟩

/-! ## Claim C5 -/

/-- Claim C5 fails on the code: marking a currently expired number as used
does not return IllegalTransition and does not leave the store unchanged —
`_mark_selected_used` overwrites the status unconditionally, so the expired
entry comes back with status used. -/
theorem c5_counterexample :
    markSelectedUsed [expiredNumber] expiredNumber "2025-03-01 12:00:00"
      ≠ [expiredNumber] ∧
    (markSelectedUsed [expiredNumber] expiredNumber
        "2025-03-01 12:00:00").map (fun n => n.status)
      = [NumberStatus.used] := by
  constructor
  · intro h
    have := congrArg (fun l => (l.map (fun n => n.status))) h
    simp [markSelectedUsed, setStatusFirstMatch, matchesSelection,
      expiredNumber] at this
  · simp [markSelectedUsed, setStatusFirstMatch, matchesSelection]

/-- Claim C5 amended: the status-transition operations perform no legality
check at all — `_mark_selected_used` sets status used on the first matching
entry unconditionally, whatever its current status (expired included), and
returns no error value of any kind; the store is always mutated on a
match. -/
theorem c5_transition_unconditional (n : OwnedNumber) (now : String) :
    markSelectedUsed [n] n now
      = [{ n with status := .used, last_used := now }] := by
  simp [markSelectedUsed, setStatusFirstMatch, matchesSelection]

/-! ## Claim C6 -/

/-- Claim C6 fails on the code: a polling cycle already past the loop-top
flag check when Stop() flips the flag still journals and displays every
fetched code — nothing in `_check_for_sms_codes` or
`_add_sms_code_to_display` consults the stopped flag, so the in-flight
result is NOT discarded and surfaces after Stop() has returned. -/
theorem c6_counterexample :
    (stopSmsMonitoring
        { monitoring_active := true, db := [],
          sms_codes := [] }).monitoring_active = false ∧
    (checkForSmsCodes fetchN1 ["N1"]
        (stopSmsMonitoring
          { monitoring_active := true, db := [], sms_codes := [] })).sms_codes
      = [codeN1] ∧
    (checkForSmsCodes fetchN1 ["N1"]
        (stopSmsMonitoring
          { monitoring_active := true, db := [], sms_codes := [] })).db
      = [codeN1] := by
  decide

/-- Claim C6 amended: Stop() only clears the monitoring-active flag, which is
consulted solely at the top of the worker loop: no NEW cycle starts after
Stop() (the worker step yields none on a stopped state), but a cycle already
in flight runs to completion and its fetched codes are still appended to the
journal and the display after Stop() has returned — in-flight results are
surfaced, not discarded. -/
theorem c6_stop_only_blocks_next_cycle (fetch : String → List CodeRow)
    (nums : List String) (s : MonState) :
    monitoringWorkerStep fetch nums (stopSmsMonitoring s) = none ∧
    (checkForSmsCodes fetch nums (stopSmsMonitoring s)).db
      = s.db ++ (nums.map fetch).flatten ∧
    (checkForSmsCodes fetch nums (stopSmsMonitoring s)).sms_codes
      = s.sms_codes ++ (nums.map fetch).flatten := by
  refine ⟨?_, ?_, ?_⟩
  · simp [monitoringWorkerStep, stopSmsMonitoring]
  · simp [checkForSmsCodes_db, stopSmsMonitoring]
  · simp [checkForSmsCodes_sms_codes, stopSmsMonitoring]

/-! ## Claim C7 -/

/-- Claim C7 fails on the code: with the interval entry holding 5 at cycle 0
and changed to 1 from cycle 1 on, the worker's sleep sequence over two
cycles is [5, 5] while the reload-each-cycle behaviour the claim describes
would give [5, 1] — `monitoring_worker` reads the entry once, before its
while loop. -/
theorem c7_counterexample :
    monitoringWorkerSleeps intervalVarRun 2
      ≠ specReloadedSleeps intervalVarRun 2 := by
  norm_num [monitoringWorkerSleeps, specReloadedSleeps, intervalVarRun,
    parsePollInterval, List.range_succ]

/-- Claim C7 amended: the poll interval is read exactly once, when the worker
starts; every cycle sleeps for the value read at cycle 0, so a change to the
interval entry made while the scheduler is live has no effect on any tick —
two runs whose entry agrees at cycle 0 sleep identically forever, and taking
effect requires a restart. -/
theorem c7_interval_read_once (v w : Nat → Option ℚ) (fuel : Nat)
    (h : v 0 = w 0) :
    monitoringWorkerSleeps v fuel = monitoringWorkerSleeps w fuel ∧
    monitoringWorkerSleeps v fuel
      = List.replicate fuel (parsePollInterval (v 0)) := by
  constructor
  · simp [monitoringWorkerSleeps, h]
  · simp [monitoringWorkerSleeps, List.map_const', List.length_range]

/-- Claim C7 amended, instantiated: the run whose entry changes from 5 to 1
after cycle 0 sleeps exactly like the run whose entry is 5 forever. -/
theorem c7_interval_read_once_witness :
    intervalVarRun 0 = (fun _ => some (5 : ℚ)) 0 ∧
    (monitoringWorkerSleeps intervalVarRun 2
        = monitoringWorkerSleeps (fun _ => some (5 : ℚ)) 2 ∧
      monitoringWorkerSleeps intervalVarRun 2
        = List.replicate 2 (parsePollInterval (intervalVarRun 0))) :=
  ⟨rfl, c7_interval_read_once intervalVarRun (fun _ => some (5 : ℚ)) 2 rfl⟩

/-! ## Claim C8 -/

/-- Claim C8: when either price-range entry fails to parse as a number, the
whole price filter is skipped — the try/except around both conversions and
the price comparison swallows the failure — and the result equals the run
with no price filter at all, with the service, country, and provider
criteria still applied; no error is ever raised (the function is total). -/
theorem c8_malformed_price_no_filter (providers : List Item)
    (serviceVar countryVar : String) (priceMin priceMax : Option ℚ)
    (providerVar : String) (h : priceMin = none ∨ priceMax = none) :
    getFilteredData providers serviceVar countryVar priceMin priceMax
        providerVar
      = getFilteredData providers serviceVar countryVar none none
          providerVar := by
  unfold getFilteredData
  rcases h with rfl | rfl
  · cases priceMax <;> rfl
  · cases priceMin <;> rfl

/-- Claim C8, instantiated: a malformed minimum with a well-formed maximum
filters exactly like no price filter on a concrete catalog. -/
theorem c8_malformed_price_no_filter_witness :
    ((none : Option ℚ) = none ∨ (some (10 : ℚ)) = none) ∧
    getFilteredData [itemA, itemB] "Telegram" "all" none (some 10) "all"
      = getFilteredData [itemA, itemB] "Telegram" "all" none none "all" :=
  ⟨Or.inl rfl,
   c8_malformed_price_no_filter [itemA, itemB] "Telegram" "all" none
     (some 10) "all" (Or.inl rfl)⟩

/-! ## Claim C9 -/

/-- Claim C9: loading the durable store of owned numbers when the backing
file does not exist returns the empty list and signals no error: the
exists() check falls through to the final return with no exception even
raised internally, and the caller-facing type is a plain list. -/
theorem c9_missing_file_empty :
    loadOwnedNumbers .missing = [] ∧
    tryLoadOwnedNumbers .missing = .ok [] :=
  ⟨rfl, rfl⟩

/-! ## Claim C10 -/

theorem enableN_stable : ∀ n : Nat, 1 ≤ n → enableN n = enableN 1
  | 1, _ => rfl
  | n + 2, _ => by
    have ih := enableN_stable (n + 1) (Nat.le_add_left 1 n)
    show (enableLogoutProtection true (enableN (n + 1))).2 = enableN 1
    rw [ih]
    rfl

/-- Claim C10: with a working telethon import, enable_logout_protection is
idempotent — after the first call every further call returns True and leaves
the class untouched — the saved _orig_log_out slot holds the original
unwrapped log_out (never the guard wrapper), the installed log_out is the
wrapper, and invoking it raises RuntimeError unless ALLOW_TELEGRAM_LOGOUT is
"1", in which case the original method runs. -/
theorem c10_logout_guard (n : Nat) (env : Option String) (h : 1 ≤ n) :
    enableLogoutProtection true (enableN n) = (true, enableN n) ∧
    (enableN n).orig_log_out = some .original ∧
    (enableN n).log_out = .guarded ∧
    callLogOut (enableN n) env
      = (if env = some "1" then .loggedOut else .runtimeError) := by
  rw [enableN_stable n h]
  refine ⟨rfl, rfl, rfl, ?_⟩
  by_cases henv : env = some "1"
  · simp [callLogOut, callGuardedBody, henv, enableN, enableLogoutProtection,
      initTelegramClientClass]
  · simp [callLogOut, callGuardedBody, henv, enableN, enableLogoutProtection,
      initTelegramClientClass]

/-- Claim C10, instantiated at two enable calls and a denied environment. -/
theorem c10_logout_guard_witness :
    1 ≤ 2 ∧
    (enableLogoutProtection true (enableN 2) = (true, enableN 2) ∧
     (enableN 2).orig_log_out = some .original ∧
     (enableN 2).log_out = .guarded ∧
     callLogOut (enableN 2) (some "0")
       = (if (some "0" : Option String) = some "1" then
           .loggedOut
         else
           .runtimeError)) :=
  ⟨by decide, c10_logout_guard 2 (some "0") (by decide)⟩

end LuckyCharm
